import Mathlib

/-!
Shallow embedding of the autotune implementation-selection core
(aten/src/ATen/native/autotune/dispatch/core.cpp): the per-variant bandit
registries (ActiveBandits), the process-wide DispatchInterface, and the
per-call SelectImplementation session protocol.  Enumerations and the
bandit-instance contract live in headers and bandit sources that are not
part of the source tree here; those are modelled from the spec and marked
as such in their doc comments.  Stateful C++ methods become functions
threading an explicit state; TORCH_INTERNAL_ASSERT failures and throwing
lookups become an Except over a Fault enumeration.
-/

namespace Autotune

/-- Modelled from the spec: the strategy enumeration (api.h, absent from the
source tree): a None value meaning autotuning is disabled plus the two
selectable variants, random exploration and Gaussian. -/
inductive AvailableBandits
  | kNone
  | kRandomChoice
  | kGaussian
deriving DecidableEq

/-- Modelled from the spec: the implementation enumeration (api.h, absent
from the source tree): concrete candidate implementations, the Disabled and
Fallback pseudo-choices, and the non-selectable TOTAL_COUNT sentinel. -/
inductive Implementation
  | kImpl0
  | kImpl1
  | kImpl2
  | kDisabled
  | kFallback
  | TOTAL_COUNT
deriving DecidableEq

/-- A concrete (real) candidate implementation: not Disabled, not Fallback,
not the count sentinel. -/
def Implementation.isReal : Implementation → Bool
  | .kImpl0 => true
  | .kImpl1 => true
  | .kImpl2 => true
  | _ => false

/-- KernelEntryPoint::MapKey is an opaque hashable call-site identity;
modelled as a natural number. -/
abbrev MapKey := Nat

/-- KernelEntryPoint::cost_estimates, an ordered sequence of scalar cost
estimates, one per candidate implementation. -/
abbrev CostEstimates := List Nat

/-- The cost-estimator callback passed to the registry. -/
abbrev CostFn := Unit → CostEstimates

/-- Modelled from the spec: the common bandit-instance state (the bandit
variant sources are absent from the source tree).  It records the
cost estimates that seeded the priors, the creation seed drawn from the
registry's monotone counter, and the observations incorporated by update.
The variant's internal random source is not observed by any property
proved here and is abstracted away. -/
structure Bandit where
  costs : CostEstimates
  seed : Nat
  observations : List (Implementation × Nat)
deriving DecidableEq

/-- Modelled from the spec: Bandit::update incorporates one observed cost
for one implementation into belief state. -/
def Bandit.update (b : Bandit) (choice : Implementation) (delta_ns : Nat) :
    Bandit :=
  { b with observations := b.observations ++ [(choice, delta_ns)] }

/-- The internal-consistency faults of the core: the TORCH_INTERNAL_ASSERT
failures of core.cpp and the throwing map lookup in ActiveBandits::get. -/
inductive Fault
  | could_not_select_bandit
  | count_sentinel
  | not_found
  | no_implementations
  | double_finish
deriving DecidableEq

/-- Association-list lookup modelling ska::flat_hash_map find. -/
def lookupBandit : List (MapKey × Bandit) → MapKey → Option Bandit
  | [], _ => none
  | (k, b) :: rest, key => if k = key then some b else lookupBandit rest key

/-- The state of one ActiveBandits registry (one per strategy-variant
type): the seed counter, the ordered creation list, and the key-to-instance
map (modelled as an association list). -/
structure ActiveBandits where
  next_seed_ : Nat
  ordered_keys_ : List MapKey
  bandits_ : List (MapKey × Bandit)
deriving DecidableEq

/-- A freshly constructed (empty) registry. -/
def ActiveBandits.init : ActiveBandits :=
  { next_seed_ := 0, ordered_keys_ := [], bandits_ := [] }

/-- bandits_.find(key) on a registry. -/
def ActiveBandits.find (r : ActiveBandits) (key : MapKey) : Option Bandit :=
  lookupBandit r.bandits_ key

/-- ActiveBandits::get(key, cost_fn) (get-or-create, core.cpp lines 31-42).
If the key is absent: append the key to the ordered list, invoke cost_fn,
store a new instance built from the estimates and the current seed, and
advance the seed.  Returns the registry after the call, the instance for
the key, and the number of cost_fn invocations this call performed. -/
def ActiveBandits.get (r : ActiveBandits) (key : MapKey) (cost_fn : CostFn) :
    ActiveBandits × Bandit × Nat :=
  match r.find key with
  | some b => (r, b, 0)
  | none =>
      let cost_estimates := cost_fn ()
      let b : Bandit :=
        { costs := cost_estimates, seed := r.next_seed_, observations := [] }
      ({ next_seed_ := r.next_seed_ + 1,
         ordered_keys_ := r.ordered_keys_ ++ [key],
         bandits_ := (key, b) :: r.bandits_ }, b, 1)

/-- ActiveBandits::get(key) (core.cpp lines 44-46): bandits_.at(key), which
throws when the key is absent. -/
def ActiveBandits.get_at (r : ActiveBandits) (key : MapKey) :
    Except Fault Bandit :=
  match r.find key with
  | some b => .ok b
  | none => .error .not_found

/-- Replace the instance stored at key (the in-place mutation performed
through the reference ActiveBandits::get hands out). -/
def ActiveBandits.store (r : ActiveBandits) (key : MapKey) (b : Bandit) :
    ActiveBandits :=
  { r with
    bandits_ := r.bandits_.map fun p => if p.1 = key then (key, b) else p }

/-- ActiveBandits::summarize (core.cpp lines 48-52): walks the ordered
creation list and reports each instance, tagged with its key; reporting is
side-effect-free on the registry, so the emitted key sequence is the
observable. -/
def ActiveBandits.summarize (r : ActiveBandits) : List MapKey :=
  r.ordered_keys_

/-- ActiveBandits::reset (core.cpp lines 54-58): seed counter back to zero,
ordered list cleared, map cleared. -/
def ActiveBandits.reset (_r : ActiveBandits) : ActiveBandits :=
  ActiveBandits.init

/-- Run a sequence of get-or-create calls, keeping only the registry. -/
def ActiveBandits.runGets (r : ActiveBandits) :
    List (MapKey × CostFn) → ActiveBandits
  | [] => r
  | (k, f) :: rest => ((r.get k f).1).runGets rest

/-- The process-wide DispatchInterface state: the active strategy, the
global chosen-count table (indexed by implementation identifier), and the
two per-variant registry singletons routed to by the tag switches. -/
structure DispatchInterface where
  active_bandit_ : AvailableBandits
  chosen_counts_ : Implementation → Nat
  drunken_bandits : ActiveBandits
  gaussian_bandits : ActiveBandits

/-- The process state at startup: no active strategy, zero counts, empty
registries. -/
def DispatchInterface.init : DispatchInterface :=
  { active_bandit_ := .kNone,
    chosen_counts_ := fun _ => 0,
    drunken_bandits := ActiveBandits.init,
    gaussian_bandits := ActiveBandits.init }

/-- DispatchInterface::active_bandit (core.cpp lines 74-76). -/
def DispatchInterface.active_bandit (s : DispatchInterface) :
    AvailableBandits :=
  s.active_bandit_

/-- DispatchInterface::set_active_bandit (core.cpp lines 78-80). -/
def DispatchInterface.set_active_bandit (s : DispatchInterface)
    (b : AvailableBandits) : DispatchInterface :=
  { s with active_bandit_ := b }

/-- Increment the chosen-count table at one implementation. -/
def bump (f : Implementation → Nat) (c : Implementation) :
    Implementation → Nat :=
  fun i => if i = c then f i + 1 else f i

/-- DispatchInterface::choose (core.cpp lines 82-100), parameterised by the
bandit-variant choose rule, which lives in the bandit sources absent from
the source tree (the spec contract for it is section 4.1: it must never
return the count sentinel).  Routes to the registry matching the tag
(faulting on kNone via the default branch), get-or-creates the instance,
asks it to choose, faults if the choice is the TOTAL_COUNT sentinel, then
increments the global count for the choice.  Returns the choice, the next
state, and the number of cost-estimator invocations performed. -/
def DispatchInterface.choose (chooseFn : Bandit → Implementation)
    (s : DispatchInterface) (bandit : AvailableBandits) (key : MapKey)
    (cost_estimates : CostFn) :
    Except Fault (Implementation × DispatchInterface × Nat) :=
  match bandit with
  | .kRandomChoice =>
      let g := s.drunken_bandits.get key cost_estimates
      let choice := chooseFn g.2.1
      if choice = .TOTAL_COUNT then .error .count_sentinel
      else
        .ok (choice,
          { s with drunken_bandits := g.1,
                   chosen_counts_ := bump s.chosen_counts_ choice }, g.2.2)
  | .kGaussian =>
      let g := s.gaussian_bandits.get key cost_estimates
      let choice := chooseFn g.2.1
      if choice = .TOTAL_COUNT then .error .count_sentinel
      else
        .ok (choice,
          { s with gaussian_bandits := g.1,
                   chosen_counts_ := bump s.chosen_counts_ choice }, g.2.2)
  | .kNone => .error .could_not_select_bandit

/-- DispatchInterface::times_chosen (core.cpp lines 102-105): faults on the
TOTAL_COUNT sentinel, otherwise reads the global counter.  The reference is
a pure read of the table; it takes the state immutably. -/
def DispatchInterface.times_chosen (s : DispatchInterface)
    (choice : Implementation) : Except Fault Nat :=
  if choice = .TOTAL_COUNT then .error .count_sentinel
  else .ok (s.chosen_counts_ choice)

/-- DispatchInterface::update (core.cpp lines 107-122): routes to the
matching registry's throwing get (the instance must already exist) and
applies the bandit update in place. -/
def DispatchInterface.update (s : DispatchInterface)
    (bandit : AvailableBandits) (key : MapKey) (choice : Implementation)
    (delta_ns : Nat) : Except Fault DispatchInterface :=
  match bandit with
  | .kRandomChoice =>
      match s.drunken_bandits.get_at key with
      | .ok b =>
          .ok { s with drunken_bandits :=
                  s.drunken_bandits.store key (b.update choice delta_ns) }
      | .error e => .error e
  | .kGaussian =>
      match s.gaussian_bandits.get_at key with
      | .ok b =>
          .ok { s with gaussian_bandits :=
                  s.gaussian_bandits.store key (b.update choice delta_ns) }
      | .error e => .error e
  | .kNone => .error .could_not_select_bandit

/-- DispatchInterface::summarize (core.cpp lines 124-136): switches on the
currently active strategy and reports that registry; the kNone value hits
the default branch and faults. -/
def DispatchInterface.summarize (s : DispatchInterface) :
    Except Fault (List MapKey) :=
  match s.active_bandit_ with
  | .kRandomChoice => .ok s.drunken_bandits.summarize
  | .kGaussian => .ok s.gaussian_bandits.summarize
  | .kNone => .error .could_not_select_bandit

/-- DispatchInterface::reset (core.cpp lines 138-145): resets both
registries, clears the active strategy to kNone, zeroes every slot of the
chosen-count table. -/
def DispatchInterface.reset (s : DispatchInterface) : DispatchInterface :=
  { active_bandit_ := .kNone,
    chosen_counts_ := fun _ => 0,
    drunken_bandits := s.drunken_bandits.reset,
    gaussian_bandits := s.gaussian_bandits.reset }

/-- Modelled from the spec: the call-site descriptor consumed by a session
(KernelEntryPoint, absent from the source tree): the call-site key, whether
the site is fallback-only, the declared candidate implementations, and the
cost estimates its cost callback produces. -/
structure KernelEntryPoint where
  key : MapKey
  fallback : Bool
  implementations : List Implementation
  costs : CostEstimates

/-- The per-call SelectImplementation session state: the descriptor, the
strategy captured at construction, the recorded choice, whether a duration
is being recorded (the timer was started), and the one-shot finished flag.
The two flags default to false in the class declaration (core.h, absent
from the source tree; the spec states a timestamp is present only when
measurement is required and the finished flag is one-shot). -/
structure SelectImplementation where
  entry_point_ : KernelEntryPoint
  bandit_type_ : AvailableBandits
  choice_ : Implementation
  record_duration_ : Bool
  record_finished_ : Bool

/-- The SelectImplementation constructor (core.cpp lines 147-170): capture
the active strategy; if it is kNone the session is Disabled with the
kDisabled sentinel; else if the site is fallback-only the session is
Fallback with the kFallback sentinel; else it faults when zero candidate
implementations are declared, and otherwise routes a choose through the
DispatchInterface, starts the timer, and enters the Measuring state.
Returns the session, the next process state, and the number of
cost-estimator invocations performed.  Wall-clock timestamps are external;
the started timer is modelled by the record_duration_ flag. -/
def SelectImplementation.construct (chooseFn : Bandit → Implementation)
    (s : DispatchInterface) (ep : KernelEntryPoint) :
    Except Fault (SelectImplementation × DispatchInterface × Nat) :=
  let bt := s.active_bandit
  if bt = .kNone then
    .ok ({ entry_point_ := ep, bandit_type_ := bt, choice_ := .kDisabled,
           record_duration_ := false, record_finished_ := false }, s, 0)
  else if ep.fallback then
    .ok ({ entry_point_ := ep, bandit_type_ := bt, choice_ := .kFallback,
           record_duration_ := false, record_finished_ := false }, s, 0)
  else if ep.implementations.length = 0 then
    .error .no_implementations
  else
    match DispatchInterface.choose chooseFn s bt ep.key (fun _ => ep.costs)
      with
    | .ok (choice, s2, n) =>
        .ok ({ entry_point_ := ep, bandit_type_ := bt, choice_ := choice,
               record_duration_ := true, record_finished_ := false }, s2, n)
    | .error e => .error e

/-- SelectImplementation::choice (core.cpp lines 172-175). -/
def SelectImplementation.choice (sess : SelectImplementation) :
    Implementation :=
  sess.choice_

/-- One record emitted to the observation log: strategy, key, choice,
elapsed nanoseconds. -/
abbrev LogRecord := AvailableBandits × MapKey × Implementation × Nat

/-- SelectImplementation::finish (core.cpp lines 177-191): a no-op when no
duration is being recorded; otherwise the elapsed duration is taken (the
wall clock is external, so it arrives as the delta_ns argument), a second
call faults as a double finish, and the first call seals the finished flag,
feeds the observation back through DispatchInterface::update, and emits a
log record.  Returns the session, the next process state, the number of
update calls performed, and the log records emitted. -/
def SelectImplementation.finish (sess : SelectImplementation)
    (s : DispatchInterface) (delta_ns : Nat) :
    Except Fault (SelectImplementation × DispatchInterface × Nat ×
      List LogRecord) :=
  if sess.record_duration_ = false then
    .ok (sess, s, 0, [])
  else if sess.record_finished_ then
    .error .double_finish
  else
    match s.update sess.bandit_type_ sess.entry_point_.key sess.choice_
        delta_ns with
    | .ok s2 =>
        .ok ({ sess with record_finished_ := true }, s2, 1,
          [(sess.bandit_type_, sess.entry_point_.key, sess.choice_,
            delta_ns)])
    | .error e => .error e

/-- One choose request against the DispatchInterface: the strategy tag, the
call-site key, and the cost-estimator callback. -/
structure ChooseReq where
  bandit : AvailableBandits
  key : MapKey
  cost_fn : CostFn

/-- Run a sequence of DispatchInterface::choose calls, threading the state;
any fault aborts the sequence (the reference assertion terminates the
process). -/
def runChooses (chooseFn : Bandit → Implementation)
    (s : DispatchInterface) : List ChooseReq → Except Fault DispatchInterface
  | [] => .ok s
  | req :: rest =>
      match DispatchInterface.choose chooseFn s req.bandit req.key
          req.cost_fn with
      | .ok (_, s2, _) => runChooses chooseFn s2 rest
      | .error e => .error e

/-- The sum of a chosen-count table over the real implementation
identifiers. -/
def realCount (f : Implementation → Nat) : Nat :=
  f .kImpl0 + f .kImpl1 + f .kImpl2

/-- State reached by one choose on the reset startup state (witness
support). -/
def C4_after_choose : DispatchInterface :=
  match DispatchInterface.choose (fun _ => .kImpl0)
      (DispatchInterface.init.reset) .kRandomChoice 0
      (fun _ => [10, 20, 30]) with
  | .ok (_, s, _) => s
  | .error _ => DispatchInterface.init

/-- Witness support: a process state whose random-variant registry already
holds key 0. -/
def C5_state : DispatchInterface :=
  { DispatchInterface.init with
    drunken_bandits := (ActiveBandits.init.get 0 fun _ => [10, 20, 30]).1 }

/-- Witness support: a Measuring session for key 0 under the random
strategy. -/
def C5_sess : SelectImplementation :=
  { entry_point_ :=
      { key := 0, fallback := false, implementations := [.kImpl0],
        costs := [10, 20, 30] },
    bandit_type_ := .kRandomChoice, choice_ := .kImpl0,
    record_duration_ := true, record_finished_ := false }

/-- Witness support: the state after feeding one observation back. -/
def C5_after_update : DispatchInterface :=
  match DispatchInterface.update C5_state .kRandomChoice 0 .kImpl0 500 with
  | .ok s => s
  | .error _ => C5_state

/-- Witness support: one concrete choose request. -/
def C6_req : ChooseReq :=
  { bandit := .kRandomChoice, key := 0, cost_fn := fun _ => [10, 20, 30] }

/-- Witness support: the state after running that request from startup. -/
def C6_after : DispatchInterface :=
  match runChooses (fun _ => .kImpl0) DispatchInterface.init [C6_req] with
  | .ok s => s
  | .error _ => DispatchInterface.init

/-- Witness support: the state after one successful choose from startup. -/
def C7_after : DispatchInterface :=
  match DispatchInterface.choose (fun _ => .kImpl0) DispatchInterface.init
      .kRandomChoice 0 (fun _ => [10, 20, 30]) with
  | .ok (_, s, _) => s
  | .error _ => DispatchInterface.init

lemma lookupBandit_of_ne (l : List (MapKey × Bandit)) (k key : MapKey)
    (b : Bandit) (h : k ≠ key) :
    lookupBandit ((k, b) :: l) key = lookupBandit l key := by
  simp [lookupBandit, h]

/-- Unfolding rule for get-or-create on a present key. -/
lemma get_of_found {r : ActiveBandits} {key : MapKey} {b : Bandit}
    (f : CostFn) (h : r.find key = some b) : r.get key f = (r, b, 0) := by
  unfold ActiveBandits.get
  rw [h]

/-- Unfolding rule for get-or-create on an absent key. -/
lemma get_of_absent {r : ActiveBandits} {key : MapKey} (f : CostFn)
    (h : r.find key = none) :
    r.get key f =
      ({ next_seed_ := r.next_seed_ + 1,
         ordered_keys_ := r.ordered_keys_ ++ [key],
         bandits_ :=
           (key, { costs := f (), seed := r.next_seed_, observations := [] })
             :: r.bandits_ },
       { costs := f (), seed := r.next_seed_, observations := [] }, 1) := by
  unfold ActiveBandits.get
  rw [h]

/-- One get-or-create call never disturbs an existing entry. -/
lemma find_get_preserved (r : ActiveBandits) (key k2 : MapKey) (b : Bandit)
    (f : CostFn) (h : r.find key = some b) :
    ((r.get k2 f).1).find key = some b := by
  unfold ActiveBandits.get
  cases hf : r.find k2 with
  | some b2 => simpa using h
  | none =>
      have hne : k2 ≠ key := by
        intro he
        rw [he, h] at hf
        exact Option.noConfusion hf
      simpa [ActiveBandits.find, lookupBandit_of_ne _ _ _ _ hne] using h

/-- A whole sequence of get-or-create calls never disturbs an existing
entry. -/
lemma find_runGets_preserved (reqs : List (MapKey × CostFn))
    (r : ActiveBandits) (key : MapKey) (b : Bandit)
    (h : r.find key = some b) :
    (r.runGets reqs).find key = some b := by
  induction reqs generalizing r with
  | nil => simpa [ActiveBandits.runGets] using h
  | cons p rest ih =>
      obtain ⟨k, f⟩ := p
      exact ih _ (find_get_preserved r key k b f h)

/-- C1: the first get-or-create call for an absent key invokes the cost
estimator exactly once, stores exactly one new instance under that key, and
appends the key to the ordered creation list; after any further
get-or-create calls (no reset), a get-or-create for the same key returns
the stored instance unchanged with zero cost-estimator invocations. -/
theorem C1_get_or_create (r : ActiveBandits) (key : MapKey) (cost_fn : CostFn)
    (h : r.find key = none) :
    (r.get key cost_fn).2.2 = 1 ∧
    ((r.get key cost_fn).1).find key = some (r.get key cost_fn).2.1 ∧
    ((r.get key cost_fn).1).ordered_keys_ = r.ordered_keys_ ++ [key] ∧
    ((r.get key cost_fn).1).bandits_.length = r.bandits_.length + 1 ∧
    ∀ (reqs : List (MapKey × CostFn)) (g : CostFn),
      (((r.get key cost_fn).1).runGets reqs).get key g =
        (((r.get key cost_fn).1).runGets reqs, (r.get key cost_fn).2.1, 0) := by
  rw [get_of_absent cost_fn h]
  refine ⟨rfl, ?_, rfl, rfl, ?_⟩
  · simp [ActiveBandits.find, lookupBandit]
  · intro reqs g
    have hfound :
        (ActiveBandits.find
          { next_seed_ := r.next_seed_ + 1,
            ordered_keys_ := r.ordered_keys_ ++ [key],
            bandits_ :=
              (key, { costs := cost_fn (), seed := r.next_seed_,
                      observations := [] }) :: r.bandits_ } key) =
          some { costs := cost_fn (), seed := r.next_seed_,
                 observations := [] } := by
      simp [ActiveBandits.find, lookupBandit]
    have hrun := find_runGets_preserved reqs _ key _ hfound
    rw [get_of_found g hrun]

/-- Witness for C1 at a concrete registry and key. -/
theorem C1_get_or_create_witness :
    ActiveBandits.init.find 0 = none ∧
    ((ActiveBandits.init.get 0 fun _ => [10, 20, 30]).2.2 = 1 ∧
    ((ActiveBandits.init.get 0 fun _ => [10, 20, 30]).1).find 0 =
      some (ActiveBandits.init.get 0 fun _ => [10, 20, 30]).2.1 ∧
    ((ActiveBandits.init.get 0 fun _ => [10, 20, 30]).1).ordered_keys_ =
      ActiveBandits.init.ordered_keys_ ++ [0] ∧
    ((ActiveBandits.init.get 0 fun _ => [10, 20, 30]).1).bandits_.length =
      ActiveBandits.init.bandits_.length + 1 ∧
    ∀ (reqs : List (MapKey × CostFn)) (g : CostFn),
      (((ActiveBandits.init.get 0 fun _ => [10, 20, 30]).1).runGets
          reqs).get 0 g =
        (((ActiveBandits.init.get 0 fun _ => [10, 20, 30]).1).runGets reqs,
          (ActiveBandits.init.get 0 fun _ => [10, 20, 30]).2.1, 0)) :=
  ⟨rfl, C1_get_or_create ActiveBandits.init 0 (fun _ => [10, 20, 30]) rfl⟩

/-- C3: a Selection Session constructed while no strategy is active is
Disabled: its choice is the kDisabled sentinel, no timer is started, the
process state is unchanged (no registry entry, no cost-estimator call), and
finish is a no-op performing no update and emitting no log record; a
Fallback session (fallback-only site with a strategy active) likewise never
starts a timer and its finish never calls update. -/
theorem C3_disabled_fallback (chooseFn : Bandit → Implementation)
    (s : DispatchInterface) (ep : KernelEntryPoint) :
    (s.active_bandit_ = .kNone →
      ∃ sess : SelectImplementation,
        SelectImplementation.construct chooseFn s ep = .ok (sess, s, 0) ∧
        sess.bandit_type_ = .kNone ∧
        sess.choice_ = .kDisabled ∧
        sess.record_duration_ = false ∧
        ∀ (s2 : DispatchInterface) (d : Nat),
          sess.finish s2 d = .ok (sess, s2, 0, [])) ∧
    (s.active_bandit_ ≠ .kNone → ep.fallback = true →
      ∃ sess : SelectImplementation,
        SelectImplementation.construct chooseFn s ep = .ok (sess, s, 0) ∧
        sess.choice_ = .kFallback ∧
        sess.record_duration_ = false ∧
        ∀ (s2 : DispatchInterface) (d : Nat),
          sess.finish s2 d = .ok (sess, s2, 0, [])) := by
  constructor
  · intro h
    refine ⟨{ entry_point_ := ep, bandit_type_ := .kNone,
              choice_ := .kDisabled, record_duration_ := false,
              record_finished_ := false }, ?_, rfl, rfl, rfl, ?_⟩
    · simp [SelectImplementation.construct, DispatchInterface.active_bandit,
        h]
    · intro s2 d
      simp [SelectImplementation.finish]
  · intro h hf
    refine ⟨{ entry_point_ := ep, bandit_type_ := s.active_bandit_,
              choice_ := .kFallback, record_duration_ := false,
              record_finished_ := false }, ?_, rfl, rfl, ?_⟩
    · simp [SelectImplementation.construct, DispatchInterface.active_bandit,
        h, hf]
    · intro s2 d
      simp [SelectImplementation.finish]

/-- Witness for C3: a Disabled session at the startup state and a Fallback
session with the random strategy active. -/
theorem C3_disabled_fallback_witness :
    (∃ sess : SelectImplementation,
      SelectImplementation.construct (fun _ => .kImpl0)
        DispatchInterface.init ⟨0, false, [.kImpl0], [10]⟩ =
          .ok (sess, DispatchInterface.init, 0) ∧
      sess.bandit_type_ = .kNone ∧
      sess.choice_ = .kDisabled ∧
      sess.record_duration_ = false ∧
      ∀ (s2 : DispatchInterface) (d : Nat),
        sess.finish s2 d = .ok (sess, s2, 0, [])) ∧
    (∃ sess : SelectImplementation,
      SelectImplementation.construct (fun _ => .kImpl0)
        (DispatchInterface.init.set_active_bandit .kRandomChoice)
        ⟨0, true, [.kImpl0], [10]⟩ =
          .ok (sess,
            DispatchInterface.init.set_active_bandit .kRandomChoice, 0) ∧
      sess.choice_ = .kFallback ∧
      sess.record_duration_ = false ∧
      ∀ (s2 : DispatchInterface) (d : Nat),
        sess.finish s2 d = .ok (sess, s2, 0, [])) :=
  ⟨(C3_disabled_fallback (fun _ => .kImpl0) DispatchInterface.init
      ⟨0, false, [.kImpl0], [10]⟩).1 rfl,
   (C3_disabled_fallback (fun _ => .kImpl0)
      (DispatchInterface.init.set_active_bandit .kRandomChoice)
      ⟨0, true, [.kImpl0], [10]⟩).2 (by decide) rfl⟩

/-- C4: after DispatchInterface::reset the active strategy is kNone, every
non-sentinel chosen count reads zero, both registries are back to their
initial (empty) state, and a subsequent get-or-create or choose for any key
(in particular one known before the reset) invokes the cost estimator
again. -/
theorem C4_reset_clears (chooseFn : Bandit → Implementation)
    (s : DispatchInterface) :
    (s.reset).active_bandit = .kNone ∧
    (∀ i : Implementation, i ≠ .TOTAL_COUNT →
      (s.reset).times_chosen i = .ok 0) ∧
    (s.reset).drunken_bandits = ActiveBandits.init ∧
    (s.reset).gaussian_bandits = ActiveBandits.init ∧
    (∀ (key : MapKey) (cost_fn : CostFn),
      ((s.reset).drunken_bandits.get key cost_fn).2.2 = 1 ∧
      ((s.reset).gaussian_bandits.get key cost_fn).2.2 = 1 ∧
      ∀ b : AvailableBandits, b ≠ .kNone →
        ∀ (c : Implementation) (s2 : DispatchInterface) (n : Nat),
          DispatchInterface.choose chooseFn (s.reset) b key cost_fn =
            .ok (c, s2, n) → n = 1) := by
  have hfind : ∀ key : MapKey, ActiveBandits.init.find key = none := by
    intro key
    simp [ActiveBandits.init, ActiveBandits.find, lookupBandit]
  refine ⟨rfl, ?_, rfl, rfl, ?_⟩
  · intro i hi
    simp [DispatchInterface.reset, DispatchInterface.times_chosen, hi]
  · intro key cost_fn
    refine ⟨?_, ?_, ?_⟩
    · rw [show (s.reset).drunken_bandits = ActiveBandits.init from rfl,
        get_of_absent cost_fn (hfind key)]
    · rw [show (s.reset).gaussian_bandits = ActiveBandits.init from rfl,
        get_of_absent cost_fn (hfind key)]
    · intro b hb c s2 n h
      cases b with
      | kNone => exact absurd rfl hb
      | kRandomChoice =>
          simp only [DispatchInterface.choose] at h
          split at h
          · exact Except.noConfusion h
          · simp only [Except.ok.injEq, Prod.mk.injEq] at h
            rw [← h.2.2,
              show (s.reset).drunken_bandits = ActiveBandits.init from rfl,
              get_of_absent cost_fn (hfind key)]
      | kGaussian =>
          simp only [DispatchInterface.choose] at h
          split at h
          · exact Except.noConfusion h
          · simp only [Except.ok.injEq, Prod.mk.injEq] at h
            rw [← h.2.2,
              show (s.reset).gaussian_bandits = ActiveBandits.init from rfl,
              get_of_absent cost_fn (hfind key)]

/-- Witness for C4 at the startup state: zero counts after reset and a
re-invoked estimator for a key that was known before the reset. -/
theorem C4_reset_clears_witness :
    (DispatchInterface.init.reset).active_bandit = .kNone ∧
    (DispatchInterface.init.reset).times_chosen .kImpl0 = .ok 0 ∧
    ((DispatchInterface.init.reset).drunken_bandits.get 0
      fun _ => [10, 20, 30]).2.2 = 1 ∧
    (1 : Nat) = 1 :=
  ⟨(C4_reset_clears (fun _ => .kImpl0) DispatchInterface.init).1,
   (C4_reset_clears (fun _ => .kImpl0) DispatchInterface.init).2.1 .kImpl0
     (by decide),
   ((C4_reset_clears (fun _ => .kImpl0) DispatchInterface.init).2.2.2.2 0
     (fun _ => [10, 20, 30])).1,
   ((C4_reset_clears (fun _ => .kImpl0) DispatchInterface.init).2.2.2.2 0
     (fun _ => [10, 20, 30])).2.2 .kRandomChoice (by decide) .kImpl0
     C4_after_choose 1 rfl⟩

/-- C5: the first finish of a Measuring session (timer running, not yet
finished) performs exactly one update and emits exactly one log record,
sealing the finished flag; a second finish on the resulting session raises
the double-finish fault (and, being a fault, performs no second update). -/
theorem C5_double_finish (sess : SelectImplementation)
    (s s2 : DispatchInterface) (d : Nat)
    (hdur : sess.record_duration_ = true)
    (hfin : sess.record_finished_ = false)
    (hupd : DispatchInterface.update s sess.bandit_type_
      sess.entry_point_.key sess.choice_ d = .ok s2) :
    sess.finish s d =
      .ok ({ sess with record_finished_ := true }, s2, 1,
        [(sess.bandit_type_, sess.entry_point_.key, sess.choice_, d)]) ∧
    ∀ (s3 : DispatchInterface) (d2 : Nat),
      SelectImplementation.finish { sess with record_finished_ := true }
        s3 d2 = .error .double_finish := by
  constructor
  · simp [SelectImplementation.finish, hdur, hfin, hupd]
  · intro s3 d2
    simp [SelectImplementation.finish, hdur]

/-- Witness for C5: a concrete Measuring session over a registry that holds
its key. -/
theorem C5_double_finish_witness :
    C5_sess.record_duration_ = true ∧
    C5_sess.record_finished_ = false ∧
    DispatchInterface.update C5_state C5_sess.bandit_type_
      C5_sess.entry_point_.key C5_sess.choice_ 500 = .ok C5_after_update ∧
    (C5_sess.finish C5_state 500 =
      .ok ({ C5_sess with record_finished_ := true }, C5_after_update, 1,
        [(C5_sess.bandit_type_, C5_sess.entry_point_.key, C5_sess.choice_,
          500)]) ∧
     ∀ (s3 : DispatchInterface) (d2 : Nat),
       SelectImplementation.finish { C5_sess with record_finished_ := true }
         s3 d2 = .error .double_finish) :=
  ⟨rfl, rfl, rfl,
   C5_double_finish C5_sess C5_state C5_after_update 500 rfl rfl rfl⟩

/-- The count incremented for a real choice raises the real-implementation
total by exactly one. -/
lemma realCount_bump_of_real (f : Implementation → Nat)
    (c : Implementation) (h : c.isReal = true) :
    realCount (bump f c) = realCount f + 1 := by
  cases c <;> simp_all [Implementation.isReal, realCount, bump] <;> omega

/-- One successful DispatchInterface::choose adds exactly one to the
real-implementation total, provided the bandit variant honours its contract
of returning a real implementation. -/
lemma choose_ok_realCount (chooseFn : Bandit → Implementation)
    (hreal : ∀ b, (chooseFn b).isReal = true) (s : DispatchInterface)
    (bandit : AvailableBandits) (key : MapKey) (cost_fn : CostFn)
    (c : Implementation) (s2 : DispatchInterface) (n : Nat)
    (h : DispatchInterface.choose chooseFn s bandit key cost_fn =
      .ok (c, s2, n)) :
    realCount s2.chosen_counts_ = realCount s.chosen_counts_ + 1 := by
  cases bandit with
  | kNone => exact Except.noConfusion h
  | kRandomChoice =>
      simp only [DispatchInterface.choose] at h
      split at h
      · exact Except.noConfusion h
      · simp only [Except.ok.injEq, Prod.mk.injEq] at h
        rw [← h.2.1]
        exact realCount_bump_of_real _ _ (hreal _)
  | kGaussian =>
      simp only [DispatchInterface.choose] at h
      split at h
      · exact Except.noConfusion h
      · simp only [Except.ok.injEq, Prod.mk.injEq] at h
        rw [← h.2.1]
        exact realCount_bump_of_real _ _ (hreal _)

/-- C6: over any sequence of successful choose calls with no intervening
reset, the real-implementation chosen-count total grows by exactly the
number of calls — each successful choose increments exactly one real
implementation's counter by one (the bandit variants honour the section
4.1 contract of returning a real implementation). -/
theorem C6_count_conservation (chooseFn : Bandit → Implementation)
    (hreal : ∀ b, (chooseFn b).isReal = true) (reqs : List ChooseReq)
    (s s2 : DispatchInterface)
    (h : runChooses chooseFn s reqs = .ok s2) :
    realCount s2.chosen_counts_ =
      realCount s.chosen_counts_ + reqs.length := by
  induction reqs generalizing s with
  | nil =>
      simp only [runChooses, Except.ok.injEq] at h
      rw [← h]
      simp
  | cons req rest ih =>
      rw [runChooses] at h
      cases hstep : DispatchInterface.choose chooseFn s req.bandit req.key
          req.cost_fn with
      | error e => rw [hstep] at h; exact Except.noConfusion h
      | ok t =>
          obtain ⟨c, s1, n⟩ := t
          rw [hstep] at h
          have h1 := ih s1 h
          have h2 := choose_ok_realCount chooseFn hreal s req.bandit
            req.key req.cost_fn c s1 n hstep
          simp only [List.length_cons]
          omega

/-- Witness for C6: one choose call from the startup state with a
contract-honouring variant rule. -/
theorem C6_count_conservation_witness :
    (∀ b : Bandit,
      ((fun _ : Bandit => Implementation.kImpl0) b).isReal = true) ∧
    runChooses (fun _ => .kImpl0) DispatchInterface.init [C6_req] =
      .ok C6_after ∧
    realCount C6_after.chosen_counts_ =
      realCount DispatchInterface.init.chosen_counts_ + [C6_req].length :=
  ⟨fun _ => rfl, rfl,
   C6_count_conservation (fun _ => .kImpl0) (fun _ => rfl) [C6_req]
     DispatchInterface.init C6_after rfl⟩

/-- C7: every implementation actually returned by
DispatchInterface::choose is distinct from the TOTAL_COUNT sentinel, and a
variant rule that does produce the sentinel makes choose fault rather than
return it. -/
theorem C7_sentinel_exclusion (chooseFn : Bandit → Implementation)
    (s : DispatchInterface) (bandit : AvailableBandits) (key : MapKey)
    (cost_fn : CostFn) :
    (∀ (c : Implementation) (s2 : DispatchInterface) (n : Nat),
      DispatchInterface.choose chooseFn s bandit key cost_fn =
        .ok (c, s2, n) → c ≠ .TOTAL_COUNT) ∧
    ((∀ b, chooseFn b = .TOTAL_COUNT) → bandit ≠ .kNone →
      DispatchInterface.choose chooseFn s bandit key cost_fn =
        .error .count_sentinel) := by
  constructor
  · intro c s2 n h hc
    subst hc
    cases bandit with
    | kNone => exact Except.noConfusion h
    | kRandomChoice =>
        simp only [DispatchInterface.choose] at h
        split at h
        · exact Except.noConfusion h
        · simp only [Except.ok.injEq, Prod.mk.injEq] at h
          rename_i hne
          exact hne h.1
    | kGaussian =>
        simp only [DispatchInterface.choose] at h
        split at h
        · exact Except.noConfusion h
        · simp only [Except.ok.injEq, Prod.mk.injEq] at h
          rename_i hne
          exact hne h.1
  · intro hsent hb
    cases bandit with
    | kNone => exact absurd rfl hb
    | kRandomChoice => simp [DispatchInterface.choose, hsent]
    | kGaussian => simp [DispatchInterface.choose, hsent]

/-- Witness for C7: a successful concrete choose returns a non-sentinel
value, and a sentinel-producing rule faults. -/
theorem C7_sentinel_exclusion_witness :
    Implementation.kImpl0 ≠ .TOTAL_COUNT ∧
    DispatchInterface.choose (fun _ => .TOTAL_COUNT)
      DispatchInterface.init .kRandomChoice 0 (fun _ => [10, 20, 30]) =
      .error .count_sentinel :=
  ⟨(C7_sentinel_exclusion (fun _ => .kImpl0) DispatchInterface.init
      .kRandomChoice 0 (fun _ => [10, 20, 30])).1 .kImpl0 C7_after 1 rfl,
   (C7_sentinel_exclusion (fun _ => .TOTAL_COUNT) DispatchInterface.init
      .kRandomChoice 0 (fun _ => [10, 20, 30])).2 (fun _ => rfl)
      (by decide)⟩

/-- C8: constructing a Selection Session while a strategy is active, for a
site that is not fallback-only and declares zero candidate
implementations, fails with the configuration fault — no choice is
returned, no timer is started, and no state change escapes the
constructor. -/
theorem C8_zero_candidates (chooseFn : Bandit → Implementation)
    (s : DispatchInterface) (ep : KernelEntryPoint)
    (h1 : s.active_bandit_ ≠ .kNone) (h2 : ep.fallback = false)
    (h3 : ep.implementations = []) :
    SelectImplementation.construct chooseFn s ep =
      .error .no_implementations := by
  simp [SelectImplementation.construct, DispatchInterface.active_bandit,
    h1, h2, h3]

/-- Witness for C8: active random strategy, non-fallback site, empty
candidate list. -/
theorem C8_zero_candidates_witness :
    SelectImplementation.construct (fun _ => .kImpl0)
      (DispatchInterface.init.set_active_bandit .kRandomChoice)
      { key := 0, fallback := false, implementations := [],
        costs := [10, 20, 30] } = .error .no_implementations :=
  C8_zero_candidates (fun _ => .kImpl0)
    (DispatchInterface.init.set_active_bandit .kRandomChoice)
    { key := 0, fallback := false, implementations := [],
      costs := [10, 20, 30] } (by decide) rfl rfl

/-- C9: choose and update never modify the active strategy (and
times_chosen, a pure read of the count table, takes the state immutably by
type); only set_active_bandit and reset change it, to the requested value
and to kNone respectively. -/
theorem C9_active_bandit_frame (chooseFn : Bandit → Implementation)
    (s : DispatchInterface) :
    (∀ (bandit : AvailableBandits) (key : MapKey) (cost_fn : CostFn)
      (c : Implementation) (s2 : DispatchInterface) (n : Nat),
      DispatchInterface.choose chooseFn s bandit key cost_fn =
        .ok (c, s2, n) → s2.active_bandit_ = s.active_bandit_) ∧
    (∀ (bandit : AvailableBandits) (key : MapKey) (choice : Implementation)
      (d : Nat) (s2 : DispatchInterface),
      DispatchInterface.update s bandit key choice d = .ok s2 →
      s2.active_bandit_ = s.active_bandit_) ∧
    (∀ b : AvailableBandits,
      (s.set_active_bandit b).active_bandit_ = b) ∧
    (s.reset).active_bandit_ = .kNone := by
  refine ⟨?_, ?_, fun _ => rfl, rfl⟩
  · intro bandit key cost_fn c s2 n h
    cases bandit with
    | kNone => exact Except.noConfusion h
    | kRandomChoice =>
        simp only [DispatchInterface.choose] at h
        split at h
        · exact Except.noConfusion h
        · simp only [Except.ok.injEq, Prod.mk.injEq] at h
          rw [← h.2.1]
    | kGaussian =>
        simp only [DispatchInterface.choose] at h
        split at h
        · exact Except.noConfusion h
        · simp only [Except.ok.injEq, Prod.mk.injEq] at h
          rw [← h.2.1]
  · intro bandit key choice d s2 h
    cases bandit with
    | kNone => exact Except.noConfusion h
    | kRandomChoice =>
        simp only [DispatchInterface.update] at h
        split at h
        · simp only [Except.ok.injEq] at h
          rw [← h]
        · exact Except.noConfusion h
    | kGaussian =>
        simp only [DispatchInterface.update] at h
        split at h
        · simp only [Except.ok.injEq] at h
          rw [← h]
        · exact Except.noConfusion h

/-- Witness for C9: one concrete choose and one concrete update, both
leaving the active strategy untouched. -/
theorem C9_active_bandit_frame_witness :
    C7_after.active_bandit_ = DispatchInterface.init.active_bandit_ ∧
    C5_after_update.active_bandit_ = C5_state.active_bandit_ ∧
    (C5_state.set_active_bandit .kGaussian).active_bandit_ = .kGaussian ∧
    (C5_state.reset).active_bandit_ = .kNone :=
  ⟨(C9_active_bandit_frame (fun _ => .kImpl0) DispatchInterface.init).1
      .kRandomChoice 0 (fun _ => [10, 20, 30]) .kImpl0 C7_after 1 rfl,
   (C9_active_bandit_frame (fun _ => .kImpl0) C5_state).2.1
      .kRandomChoice 0 .kImpl0 500 C5_after_update rfl,
   (C9_active_bandit_frame (fun _ => .kImpl0) C5_state).2.2.1 .kGaussian,
   (C9_active_bandit_frame (fun _ => .kImpl0) C5_state).2.2.2⟩

/-- C10: DispatchInterface::summarize faults when the active strategy is
kNone (autotuning disabled) rather than being a no-op, and it only
succeeds when the active strategy is one of the selectable variants. -/
theorem C10_summarize_requires_active (s : DispatchInterface) :
    (s.active_bandit_ = .kNone →
      DispatchInterface.summarize s = .error .could_not_select_bandit) ∧
    (∀ out : List MapKey, DispatchInterface.summarize s = .ok out →
      s.active_bandit_ = .kRandomChoice ∨
      s.active_bandit_ = .kGaussian) := by
  constructor
  · intro h
    simp [DispatchInterface.summarize, h]
  · intro out h
    cases hb : s.active_bandit_ with
    | kNone =>
        rw [DispatchInterface.summarize, hb] at h
        exact Except.noConfusion h
    | kRandomChoice => exact Or.inl rfl
    | kGaussian => exact Or.inr rfl

/-- Witness for C10: summarize faults at the startup state (strategy
kNone) and its success with the Gaussian strategy active certifies a
selectable strategy. -/
theorem C10_summarize_requires_active_witness :
    DispatchInterface.summarize DispatchInterface.init =
      .error .could_not_select_bandit ∧
    ((DispatchInterface.init.set_active_bandit .kGaussian).active_bandit_ =
        .kRandomChoice ∨
     (DispatchInterface.init.set_active_bandit .kGaussian).active_bandit_ =
        .kGaussian) :=
  ⟨(C10_summarize_requires_active DispatchInterface.init).1 rfl,
   (C10_summarize_requires_active
      (DispatchInterface.init.set_active_bandit .kGaussian)).2 [] rfl⟩

end Autotune
